import Mathlib

/-!
Shallow embedding of `src/code/mlp/learning_rules.py`.

Parameters and gradients are numpy arrays; we model an array as a `Tensor`:
a shape together with the flat list of its elements.  numpy element-wise
operations become `List.map` / `List.zipWith` on the data; an in-place
binary operation `a ⊕= b` keeps the shape of the target `a`.  Exact arithmetic
(`ℚ` for the sqrt-free rules, `ℝ` with `Real.sqrt` for RMSProp and Adam)
stands in for IEEE floats.  Python exceptions are modelled with `Except`.
-/

inductive PyErr : Type
  | assertionError
  | typeError
  | indexError
  | attributeError
  deriving DecidableEq, Repr

structure Tensor (α : Type) where
  shape : List Nat
  data : List α
  deriving DecidableEq, Repr

namespace Tensor

/-- `np.zeros_like(t)`: same shape, every element zero. -/
def zeros_like [Zero α] (t : Tensor α) : Tensor α :=
  ⟨t.shape, t.data.map fun _ => 0⟩

/-- scalar times array, `c * t` (element-wise). -/
def scale [Mul α] (c : α) (t : Tensor α) : Tensor α :=
  ⟨t.shape, t.data.map fun x => c * x⟩

/-- in-place `s += t` (element-wise, target keeps its shape). -/
def add [Add α] (s t : Tensor α) : Tensor α :=
  ⟨s.shape, List.zipWith (· + ·) s.data t.data⟩

/-- in-place `s -= t` (element-wise, target keeps its shape). -/
def sub [Sub α] (s t : Tensor α) : Tensor α :=
  ⟨s.shape, List.zipWith (· - ·) s.data t.data⟩

/-- `np.square(t)` (element-wise). -/
def square [Mul α] (t : Tensor α) : Tensor α :=
  ⟨t.shape, t.data.map fun x => x * x⟩

/-- element-wise division `s / t`. -/
def div [Div α] (s t : Tensor α) : Tensor α :=
  ⟨s.shape, List.zipWith (· / ·) s.data t.data⟩

/-- array plus scalar, `t + c` (element-wise). -/
def addScalar [Add α] (t : Tensor α) (c : α) : Tensor α :=
  ⟨t.shape, t.data.map fun x => x + c⟩

/-- `np.sqrt(t)` (element-wise, real square root). -/
noncomputable def sqrtT (t : Tensor ℝ) : Tensor ℝ :=
  ⟨t.shape, t.data.map Real.sqrt⟩

end Tensor

namespace GradientDescentLearningRule

/-- `GradientDescentLearningRule.__init__`: `assert learning_rate > 0.`,
then store the learning rate.  `params` is not yet an attribute
(`initialise` has not run), modelled as `none`. -/
def newRule (learning_rate : ℚ) :
    Except PyErr (ℚ × Option (List (Tensor ℚ))) :=
  if learning_rate > 0 then Except.ok (learning_rate, none)
  else Except.error PyErr.assertionError

/--
`GradientDescentLearningRule.update_params` body:

    for param, grad in zip(self.params, grads_wrt_params):
        param -= self.learning_rate * grad

`zip` pairs the two lists up to the shorter one and each paired param is
mutated in place, so params beyond the gradients list are left unchanged.
-/
def update_params [Ring α] (learning_rate : α) :
    List (Tensor α) → List (Tensor α) → List (Tensor α)
  | [], _ => []
  | ps, [] => ps
  | p :: ps, g :: gs =>
      p.sub (Tensor.scale learning_rate g) :: update_params learning_rate ps gs

/-- `update_params` on the object: reading `self.params` before
`initialise` raises `AttributeError`. -/
def update_params_obj (learning_rate : ℚ)
    (params : Option (List (Tensor ℚ))) (grads : List (Tensor ℚ)) :
    Except PyErr (List (Tensor ℚ)) :=
  match params with
  | none => Except.error PyErr.attributeError
  | some ps => Except.ok (update_params learning_rate ps grads)

end GradientDescentLearningRule

namespace MomentumLearningRule

/-- `MomentumLearningRule.__init__`: the inherited `learning_rate > 0`
assert runs first, then `assert mom_coeff >= 0. and mom_coeff <= 1.`. -/
def newRule (learning_rate mom_coeff : ℚ) : Except PyErr (ℚ × ℚ) :=
  if learning_rate > 0 then
    if 0 ≤ mom_coeff ∧ mom_coeff ≤ 1 then Except.ok (learning_rate, mom_coeff)
    else Except.error PyErr.assertionError
  else Except.error PyErr.assertionError

/-- `MomentumLearningRule.initialise`: `self.moms` gets one
`np.zeros_like(param)` per parameter. -/
def initialiseMoms [Zero α] (params : List (Tensor α)) : List (Tensor α) :=
  params.map Tensor.zeros_like

/--
`MomentumLearningRule.reset` body:

    for mom in zip(self.moms):
        mom *= 0.

`zip(self.moms)` yields 1-tuples `(mom,)`; `mom *= 0.` multiplies a tuple
by a float, which raises `TypeError` on the first iteration, leaving every
momentum buffer untouched.  With no parameters the loop body never runs.
-/
def reset (moms : List (Tensor α)) : Except PyErr (List (Tensor α)) :=
  match moms with
  | [] => Except.ok []
  | _ :: _ => Except.error PyErr.typeError

/--
`MomentumLearningRule.update_params` body:

    for param, mom, grad in zip(self.params, self.moms, grads_wrt_params):
        mom *= self.mom_coeff
        mom -= self.learning_rate * grad
        param += mom

Triple `zip` truncates to the shortest list; params and moms beyond it
keep their old values (in-place mutation).  Returns (params, moms).
-/
def update_params [Ring α] (learning_rate mom_coeff : α) :
    List (Tensor α) → List (Tensor α) → List (Tensor α) →
      List (Tensor α) × List (Tensor α)
  | [], ms, _ => ([], ms)
  | ps, [], _ => (ps, [])
  | ps, ms, [] => (ps, ms)
  | p :: ps, m :: ms, g :: gs =>
      let m' := (Tensor.scale mom_coeff m).sub (Tensor.scale learning_rate g)
      let rest := update_params learning_rate mom_coeff ps ms gs
      (p.add m' :: rest.1, m' :: rest.2)

/-- `initialise` followed by one `update_params` per gradient list. -/
def run [Ring α] (learning_rate mom_coeff : α)
    (params : List (Tensor α)) (gradSeq : List (List (Tensor α))) :
    List (Tensor α) × List (Tensor α) :=
  gradSeq.foldl
    (fun st gs => update_params learning_rate mom_coeff st.1 st.2 gs)
    (params, initialiseMoms params)

end MomentumLearningRule

namespace GradientDescentLearningRule

/-- `initialise` followed by one `update_params` per gradient list. -/
def run [Ring α] (learning_rate : α)
    (params : List (Tensor α)) (gradSeq : List (List (Tensor α))) :
    List (Tensor α) :=
  gradSeq.foldl (fun ps gs => update_params learning_rate ps gs) params

end GradientDescentLearningRule

namespace RMSPropLearningRule

/-- `RMSPropLearningRule.__init__`: inherited `learning_rate > 0` assert,
then `self.rms = []`, then `assert 0. <= decay_rate <= 1.`. -/
def newRule (learning_rate decay_rate : ℚ) : Except PyErr (ℚ × ℚ) :=
  if learning_rate > 0 then
    if 0 ≤ decay_rate ∧ decay_rate ≤ 1 then Except.ok (learning_rate, decay_rate)
    else Except.error PyErr.assertionError
  else Except.error PyErr.assertionError

/-- `RMSPropLearningRule.initialise`: `self.rms` gets one
`np.zeros_like(param)` per parameter. -/
def initialiseRms [Zero α] (params : List (Tensor α)) : List (Tensor α) :=
  params.map Tensor.zeros_like

/-- `RMSPropLearningRule.reset` body is `for r in zip(self.rms): r *= 0.`:
as in `MomentumLearningRule.reset`, the 1-tuple `r` times a float raises
`TypeError` on the first iteration, so nothing is zeroed. -/
def reset (rms : List (Tensor α)) : Except PyErr (List (Tensor α)) :=
  match rms with
  | [] => Except.ok []
  | _ :: _ => Except.error PyErr.typeError

/--
One iteration of `RMSPropLearningRule.update_params` per index `i`:

    self.rms[i] = self.decay_rate * self.rms[i]
                  + (1. - self.decay_rate) * np.square(grads_wrt_params[i])
    self.params[i] -= grads_wrt_params[i] * self.learning_rate
                      / (np.sqrt(self.rms[i]) + 1e-8)

`grads_wrt_params[i]` raises `IndexError` when `i` is out of range.
State is `(params, rms)`; the loop runs over `range(len(self.params))`.
-/
noncomputable def loop (learning_rate decay_rate : ℝ) (grads : List (Tensor ℝ)) :
    List Nat → List (Tensor ℝ) × List (Tensor ℝ) →
      Except PyErr (List (Tensor ℝ) × List (Tensor ℝ))
  | [], st => Except.ok st
  | i :: is, st =>
      match st.1.get? i, st.2.get? i, grads.get? i with
      | some p, some r, some g =>
          let r' := (Tensor.scale decay_rate r).add
            (Tensor.scale (1 - decay_rate) g.square)
          let p' := p.sub ((Tensor.scale learning_rate g).div
            (r'.sqrtT.addScalar 1e-8))
          loop learning_rate decay_rate grads is (st.1.set i p', st.2.set i r')
      | _, _, _ => Except.error PyErr.indexError

/-- `RMSPropLearningRule.update_params`:
`for i in range(len(self.params)): ...`. -/
noncomputable def update_params (learning_rate decay_rate : ℝ)
    (params rms grads : List (Tensor ℝ)) :
    Except PyErr (List (Tensor ℝ) × List (Tensor ℝ)) :=
  loop learning_rate decay_rate grads (List.range params.length) (params, rms)

end RMSPropLearningRule

namespace AdamLearningRule

/-- `AdamLearningRule.__init__`: inherited `learning_rate > 0` assert,
then the `[0, 1]` asserts on `first_decay_rate` and `second_decay_rate`. -/
def newRule (learning_rate first_decay_rate second_decay_rate : ℚ) :
    Except PyErr (ℚ × ℚ × ℚ) :=
  if learning_rate > 0 then
    if 0 ≤ first_decay_rate ∧ first_decay_rate ≤ 1 then
      if 0 ≤ second_decay_rate ∧ second_decay_rate ≤ 1 then
        Except.ok (learning_rate, first_decay_rate, second_decay_rate)
      else Except.error PyErr.assertionError
    else Except.error PyErr.assertionError
  else Except.error PyErr.assertionError

/-- `AdamLearningRule.initialise`: `self.first_moment` and
`self.second_moment` each get one `np.zeros_like(param)` per parameter. -/
def initialiseMoments [Zero α] (params : List (Tensor α)) :
    List (Tensor α) × List (Tensor α) :=
  (params.map Tensor.zeros_like, params.map Tensor.zeros_like)

/-- `AdamLearningRule.reset` runs `for r in zip(self.first_moment): r *= 0.`
and then the same over `self.second_moment`: the first non-empty of the two
lists raises `TypeError` (tuple times float), so nothing is zeroed. -/
def reset (first_moment second_moment : List (Tensor α)) :
    Except PyErr (List (Tensor α) × List (Tensor α)) :=
  match first_moment, second_moment with
  | [], [] => Except.ok ([], [])
  | _, _ => Except.error PyErr.typeError

/--
One iteration of `AdamLearningRule.update_params` per index `i`:

    self.first_moment[i] = b1 * self.first_moment[i] + (1. - b1) * grads[i]
    self.second_moment[i] = b2 * self.second_moment[i]
                            + (1. - b2) * np.square(grads[i])
    self.params[i] -= self.learning_rate * self.first_moment[i]
                      / (np.sqrt(self.second_moment[i]) + 1e-8)

with `b1 = first_decay_rate`, `b2 = second_decay_rate`, and no
bias-correction step.  State is `(params, first_moment, second_moment)`.
-/
noncomputable def loop (learning_rate b1 b2 : ℝ) (grads : List (Tensor ℝ)) :
    List Nat → List (Tensor ℝ) × List (Tensor ℝ) × List (Tensor ℝ) →
      Except PyErr (List (Tensor ℝ) × List (Tensor ℝ) × List (Tensor ℝ))
  | [], st => Except.ok st
  | i :: is, st =>
      match st.1.get? i, st.2.1.get? i, st.2.2.get? i, grads.get? i with
      | some p, some m1, some m2, some g =>
          let m1' := (Tensor.scale b1 m1).add (Tensor.scale (1 - b1) g)
          let m2' := (Tensor.scale b2 m2).add (Tensor.scale (1 - b2) g.square)
          let p' := p.sub ((Tensor.scale learning_rate m1').div
            (m2'.sqrtT.addScalar 1e-8))
          loop learning_rate b1 b2 grads is
            (st.1.set i p', (st.2.1.set i m1', st.2.2.set i m2'))
      | _, _, _, _ => Except.error PyErr.indexError

/-- `AdamLearningRule.update_params`:
`for i in range(len(self.params)): ...`. -/
noncomputable def update_params (learning_rate b1 b2 : ℝ)
    (params first_moment second_moment grads : List (Tensor ℝ)) :
    Except PyErr (List (Tensor ℝ) × List (Tensor ℝ) × List (Tensor ℝ)) :=
  loop learning_rate b1 b2 grads (List.range params.length)
    (params, first_moment, second_moment)

end AdamLearningRule

/-! ### Helper lemmas -/

lemma gd_update_params_get? [Ring α] (lr : α) :
    ∀ (ps gs : List (Tensor α)) (i : Nat) (p g : Tensor α),
      ps.get? i = some p → gs.get? i = some g →
      (GradientDescentLearningRule.update_params lr ps gs).get? i
        = some (p.sub (Tensor.scale lr g)) := by
  intro ps
  induction ps with
  | nil => intro gs i p g hp; simp at hp
  | cons p0 ps ih =>
    intro gs i p g hp hg
    cases gs with
    | nil => simp at hg
    | cons g0 gs =>
      cases i with
      | zero =>
        simp only [List.get?_cons_zero, Option.some.injEq] at hp hg
        subst hp; subst hg
        rfl
      | succ n =>
        simp only [List.get?_cons_succ] at hp hg
        simpa [GradientDescentLearningRule.update_params] using ih gs n p g hp hg

lemma mom_update_params_get? [Ring α] (lr c : α) :
    ∀ (ps ms gs : List (Tensor α)) (i : Nat) (p m g : Tensor α),
      ps.get? i = some p → ms.get? i = some m → gs.get? i = some g →
      (MomentumLearningRule.update_params lr c ps ms gs).2.get? i
          = some ((Tensor.scale c m).sub (Tensor.scale lr g)) ∧
        (MomentumLearningRule.update_params lr c ps ms gs).1.get? i
          = some (p.add ((Tensor.scale c m).sub (Tensor.scale lr g))) := by
  intro ps
  induction ps with
  | nil => intro ms gs i p m g hp; simp at hp
  | cons p0 ps ih =>
    intro ms gs i p m g hp hm hg
    cases ms with
    | nil => simp at hm
    | cons m0 ms =>
      cases gs with
      | nil => simp at hg
      | cons g0 gs =>
        cases i with
        | zero =>
          simp only [List.get?_cons_zero, Option.some.injEq] at hp hm hg
          subst hp; subst hm; subst hg
          exact ⟨rfl, rfl⟩
        | succ n =>
          simp only [List.get?_cons_succ] at hp hm hg
          simpa [MomentumLearningRule.update_params] using ih ms gs n p m g hp hm hg

/-! ### Claims -/

/-- Claim C1: the spec says `reset()` zeroes every auxiliary state tensor
and leaves parameters and hyperparameters unchanged.  The code's `reset`
methods iterate over `zip(buffer_list)` and multiply the resulting
1-tuples by `0.`, which raises `TypeError` on the first iteration whenever
there is at least one parameter: after Momentum with `learning_rate=0.1`,
`mom_coeff=0.9`, parameter `[0.0]` and one gradient `[1.0]`, the momentum
buffer is `[-0.1]` and `reset` raises instead of zeroing it; likewise for
RMSProp and Adam buffers. -/
theorem C1_reset_raises_typeError :
    (MomentumLearningRule.run (0.1 : ℚ) 0.9 [⟨[1], [0]⟩] [[⟨[1], [1]⟩]]).2
        = [⟨[1], [-0.1]⟩]
      ∧ MomentumLearningRule.reset [(⟨[1], [-0.1]⟩ : Tensor ℚ)]
        = Except.error PyErr.typeError
      ∧ RMSPropLearningRule.reset [(⟨[1], [0.001]⟩ : Tensor ℚ)]
        = Except.error PyErr.typeError
      ∧ AdamLearningRule.reset [(⟨[1], [0.1]⟩ : Tensor ℚ)]
          [(⟨[1], [0.001]⟩ : Tensor ℚ)]
        = Except.error PyErr.typeError := by
  refine ⟨?_, rfl, rfl, rfl⟩
  norm_num [MomentumLearningRule.run, MomentumLearningRule.update_params,
    MomentumLearningRule.initialiseMoms, Tensor.zeros_like, Tensor.sub,
    Tensor.scale, Tensor.add]

/-- Claim C2: the spec says `update_params` with a gradient list whose
length mismatches the bound parameters fails fast and never silently
truncates.  The code's `zip`-based loop does silently truncate: with two
bound parameters `[1.0]`, `[2.0]` and a single gradient `[1.0]` at
`learning_rate=0.1`, plain gradient descent updates only the first
parameter and raises nothing; only the before-`initialise` half of the
claim (an `AttributeError`) holds. -/
theorem C2_silent_truncation :
    GradientDescentLearningRule.update_params_obj (0.1 : ℚ)
        (some [⟨[1], [1]⟩, ⟨[1], [2]⟩]) [⟨[1], [1]⟩]
      = Except.ok [⟨[1], [0.9]⟩, ⟨[1], [2]⟩]
    ∧ GradientDescentLearningRule.update_params_obj (0.1 : ℚ) none [⟨[1], [1]⟩]
      = Except.error PyErr.attributeError := by
  refine ⟨?_, rfl⟩
  norm_num [GradientDescentLearningRule.update_params_obj,
    GradientDescentLearningRule.update_params, Tensor.sub, Tensor.scale]

/-- Claim C6: plain gradient descent sets each bound parameter `p` with
positionally matching gradient `g` to `p - learning_rate * g`
(element-wise) and keeps no other state; concretely, parameter
`[1.0, 2.0]` with `learning_rate=0.1` and gradient `[1.0, 1.0]` becomes
`[0.9, 1.9]`. -/
theorem C6_gd_update_params (lr : ℚ) (ps gs : List (Tensor ℚ)) (i : Nat)
    (p g : Tensor ℚ) (hp : ps.get? i = some p) (hg : gs.get? i = some g) :
    (GradientDescentLearningRule.update_params lr ps gs).get? i
        = some (p.sub (Tensor.scale lr g))
      ∧ GradientDescentLearningRule.update_params (0.1 : ℚ)
          [⟨[2], [1, 2]⟩] [⟨[2], [1, 1]⟩]
        = [⟨[2], [0.9, 1.9]⟩] := by
  refine ⟨gd_update_params_get? lr ps gs i p g hp hg, ?_⟩
  norm_num [GradientDescentLearningRule.update_params, Tensor.sub, Tensor.scale]

/-- Witness for C6 at `ps = [[1, 2]]`, `gs = [[1, 1]]`, `i = 0`. -/
theorem C6_gd_update_params_witness :
    (GradientDescentLearningRule.update_params (0.1 : ℚ)
          [⟨[2], [1, 2]⟩] [⟨[2], [1, 1]⟩]).get? 0
        = some ((⟨[2], [1, 2]⟩ : Tensor ℚ).sub
            (Tensor.scale (0.1 : ℚ) ⟨[2], [1, 1]⟩))
      ∧ GradientDescentLearningRule.update_params (0.1 : ℚ)
          [⟨[2], [1, 2]⟩] [⟨[2], [1, 1]⟩]
        = [⟨[2], [0.9, 1.9]⟩] :=
  C6_gd_update_params (0.1 : ℚ) [⟨[2], [1, 2]⟩] [⟨[2], [1, 1]⟩] 0
    ⟨[2], [1, 2]⟩ ⟨[2], [1, 1]⟩ rfl rfl

/-- Claim C4: Momentum's `update_params` sets, per parameter `i`,
`m[i] := mom_coeff * m[i] - learning_rate * g[i]` and then
`p[i] := p[i] + m[i]`; with `mom_coeff=0.9`, `learning_rate=0.1`,
parameter `[0.0]` and two gradient calls of `[1.0]`, after step 1 the
momentum is `[-0.1]` and the parameter `[-0.1]`, after step 2 the momentum
is `[-0.19]` and the parameter `[-0.29]`. -/
theorem C4_momentum_update_params (lr c : ℚ) (ps ms gs : List (Tensor ℚ))
    (i : Nat) (p m g : Tensor ℚ) (hp : ps.get? i = some p)
    (hm : ms.get? i = some m) (hg : gs.get? i = some g) :
    ((MomentumLearningRule.update_params lr c ps ms gs).2.get? i
        = some ((Tensor.scale c m).sub (Tensor.scale lr g))
      ∧ (MomentumLearningRule.update_params lr c ps ms gs).1.get? i
        = some (p.add ((Tensor.scale c m).sub (Tensor.scale lr g))))
    ∧ MomentumLearningRule.run (0.1 : ℚ) 0.9 [⟨[1], [0]⟩] [[⟨[1], [1]⟩]]
      = ([⟨[1], [-0.1]⟩], [⟨[1], [-0.1]⟩])
    ∧ MomentumLearningRule.run (0.1 : ℚ) 0.9 [⟨[1], [0]⟩]
        [[⟨[1], [1]⟩], [⟨[1], [1]⟩]]
      = ([⟨[1], [-0.29]⟩], [⟨[1], [-0.19]⟩]) := by
  refine ⟨mom_update_params_get? lr c ps ms gs i p m g hp hm hg, ?_, ?_⟩ <;>
    norm_num [MomentumLearningRule.run, MomentumLearningRule.update_params,
      MomentumLearningRule.initialiseMoms, Tensor.zeros_like, Tensor.sub,
      Tensor.scale, Tensor.add]

/-- Witness for C4 at `ps = [[0]]`, `ms = [[0]]`, `gs = [[1]]`, `i = 0`. -/
theorem C4_momentum_update_params_witness :
    ((MomentumLearningRule.update_params (0.1 : ℚ) 0.9
          [⟨[1], [0]⟩] [⟨[1], [0]⟩] [⟨[1], [1]⟩]).2.get? 0
        = some ((Tensor.scale (0.9 : ℚ) ⟨[1], [0]⟩).sub
            (Tensor.scale (0.1 : ℚ) ⟨[1], [1]⟩))
      ∧ (MomentumLearningRule.update_params (0.1 : ℚ) 0.9
          [⟨[1], [0]⟩] [⟨[1], [0]⟩] [⟨[1], [1]⟩]).1.get? 0
        = some ((⟨[1], [0]⟩ : Tensor ℚ).add
            ((Tensor.scale (0.9 : ℚ) ⟨[1], [0]⟩).sub
              (Tensor.scale (0.1 : ℚ) ⟨[1], [1]⟩))))
    ∧ MomentumLearningRule.run (0.1 : ℚ) 0.9 [⟨[1], [0]⟩] [[⟨[1], [1]⟩]]
      = ([⟨[1], [-0.1]⟩], [⟨[1], [-0.1]⟩])
    ∧ MomentumLearningRule.run (0.1 : ℚ) 0.9 [⟨[1], [0]⟩]
        [[⟨[1], [1]⟩], [⟨[1], [1]⟩]]
      = ([⟨[1], [-0.29]⟩], [⟨[1], [-0.19]⟩]) :=
  C4_momentum_update_params (0.1 : ℚ) 0.9 [⟨[1], [0]⟩] [⟨[1], [0]⟩]
    [⟨[1], [1]⟩] 0 ⟨[1], [0]⟩ ⟨[1], [0]⟩ ⟨[1], [1]⟩ rfl rfl rfl

/-- Claim C7: every constructor validates its hyperparameters at
construction time: `learning_rate ≤ 0` or a momentum/decay coefficient
outside `[0, 1]` raises `AssertionError` immediately, Adam and RMSProp
reject decay rates `-0.1` and `1.1`, and a successful construction stores
the hyperparameters exactly (no clamping, no deferral). -/
theorem C7_construction_validation :
    (∀ lr : ℚ, lr ≤ 0 →
      GradientDescentLearningRule.newRule lr
        = Except.error PyErr.assertionError)
    ∧ (∀ lr mc : ℚ, lr ≤ 0 ∨ mc < 0 ∨ 1 < mc →
      MomentumLearningRule.newRule lr mc
        = Except.error PyErr.assertionError)
    ∧ (∀ lr dr : ℚ, lr ≤ 0 ∨ dr < 0 ∨ 1 < dr →
      RMSPropLearningRule.newRule lr dr
        = Except.error PyErr.assertionError)
    ∧ (∀ lr b1 b2 : ℚ, lr ≤ 0 ∨ b1 < 0 ∨ 1 < b1 ∨ b2 < 0 ∨ 1 < b2 →
      AdamLearningRule.newRule lr b1 b2
        = Except.error PyErr.assertionError)
    ∧ RMSPropLearningRule.newRule 1e-3 (-0.1)
      = Except.error PyErr.assertionError
    ∧ RMSPropLearningRule.newRule 1e-3 1.1
      = Except.error PyErr.assertionError
    ∧ AdamLearningRule.newRule 1e-3 (-0.1) 0.999
      = Except.error PyErr.assertionError
    ∧ AdamLearningRule.newRule 1e-3 0.9 1.1
      = Except.error PyErr.assertionError
    ∧ (∀ lr : ℚ, 0 < lr →
      GradientDescentLearningRule.newRule lr = Except.ok (lr, none))
    ∧ (∀ lr mc : ℚ, 0 < lr → 0 ≤ mc → mc ≤ 1 →
      MomentumLearningRule.newRule lr mc = Except.ok (lr, mc))
    ∧ (∀ lr dr : ℚ, 0 < lr → 0 ≤ dr → dr ≤ 1 →
      RMSPropLearningRule.newRule lr dr = Except.ok (lr, dr))
    ∧ (∀ lr b1 b2 : ℚ, 0 < lr → 0 ≤ b1 → b1 ≤ 1 → 0 ≤ b2 → b2 ≤ 1 →
      AdamLearningRule.newRule lr b1 b2 = Except.ok (lr, b1, b2)) := by
  refine ⟨?_, ?_, ?_, ?_, ?_, ?_, ?_, ?_, ?_, ?_, ?_, ?_⟩
  · intro lr h
    unfold GradientDescentLearningRule.newRule
    rw [if_neg (not_lt.mpr h)]
  · intro lr mc h
    unfold MomentumLearningRule.newRule
    split_ifs with h1 h2
    · exfalso; rcases h with h | h | h <;> linarith [h2.1, h2.2]
    · rfl
    · rfl
  · intro lr dr h
    unfold RMSPropLearningRule.newRule
    split_ifs with h1 h2
    · exfalso; rcases h with h | h | h <;> linarith [h2.1, h2.2]
    · rfl
    · rfl
  · intro lr b1 b2 h
    unfold AdamLearningRule.newRule
    split_ifs with h1 h2 h3
    · exfalso
      rcases h with h | h | h | h | h <;> linarith [h2.1, h2.2, h3.1, h3.2]
    · rfl
    · rfl
    · rfl
  · norm_num [RMSPropLearningRule.newRule]
  · norm_num [RMSPropLearningRule.newRule]
  · norm_num [AdamLearningRule.newRule]
  · norm_num [AdamLearningRule.newRule]
  · intro lr h
    unfold GradientDescentLearningRule.newRule
    rw [if_pos h]
  · intro lr mc h1 h2 h3
    unfold MomentumLearningRule.newRule
    rw [if_pos h1, if_pos ⟨h2, h3⟩]
  · intro lr dr h1 h2 h3
    unfold RMSPropLearningRule.newRule
    rw [if_pos h1, if_pos ⟨h2, h3⟩]
  · intro lr b1 b2 h1 h2 h3 h4 h5
    unfold AdamLearningRule.newRule
    rw [if_pos h1, if_pos ⟨h2, h3⟩, if_pos ⟨h4, h5⟩]

/-- Witness for C7: gradient descent rejects `learning_rate = -1` and
Momentum accepts `(0.1, 0.9)` verbatim. -/
theorem C7_construction_validation_witness :
    GradientDescentLearningRule.newRule (-1)
        = Except.error PyErr.assertionError
      ∧ MomentumLearningRule.newRule (0.1 : ℚ) 0.9
        = Except.ok (0.1, 0.9) :=
  ⟨C7_construction_validation.1 (-1) (by norm_num),
    C7_construction_validation.2.2.2.2.2.2.2.2.2.1 (0.1 : ℚ) 0.9
      (by norm_num) (by norm_num) (by norm_num)⟩

/-! ### Momentum with `mom_coeff = 0` versus plain gradient descent -/

lemma mom_zero_data [Ring α] (lr : α) :
    ∀ (p m g : List α), m.length = p.length →
      List.zipWith (· + ·) p
          (List.zipWith (· - ·) (m.map fun x => 0 * x) (g.map fun x => lr * x))
        = List.zipWith (· - ·) p (g.map fun x => lr * x) := by
  intro p
  induction p with
  | nil => intro m g _; simp
  | cons a p ih =>
    intro m g hm
    cases m with
    | nil => simp at hm
    | cons b m =>
      cases g with
      | nil => simp
      | cons c g =>
        simp only [List.length_cons, Nat.succ.injEq] at hm
        simp only [List.map_cons, List.zipWith_cons_cons, ih m g hm,
          List.cons.injEq, and_true]
        rw [zero_mul, zero_sub, ← sub_eq_add_neg]

/-- the per-pair invariant: each momentum buffer has as many elements as
its parameter. -/
def MomLen (p m : Tensor α) : Prop := m.data.length = p.data.length

lemma mom_zero_step [Ring α] (lr : α) :
    ∀ (ps ms gs : List (Tensor α)), List.Forall₂ MomLen ps ms →
      (MomentumLearningRule.update_params lr 0 ps ms gs).1
          = GradientDescentLearningRule.update_params lr ps gs
        ∧ List.Forall₂ MomLen
            (MomentumLearningRule.update_params lr 0 ps ms gs).1
            (MomentumLearningRule.update_params lr 0 ps ms gs).2 := by
  intro ps ms gs h
  induction h generalizing gs with
  | nil =>
    simp [MomentumLearningRule.update_params,
      GradientDescentLearningRule.update_params]
  | @cons p m ps ms hpm hrest ih =>
    cases gs with
    | nil =>
      refine ⟨rfl, ?_⟩
      exact List.Forall₂.cons hpm hrest
    | cons g gs =>
      have hhead :
          p.add ((Tensor.scale (0 : α) m).sub (Tensor.scale lr g))
            = p.sub (Tensor.scale lr g) := by
        simp only [Tensor.add, Tensor.sub, Tensor.scale, Tensor.mk.injEq,
          true_and]
        exact mom_zero_data lr p.data m.data g.data hpm
      have hlen :
          MomLen (p.add ((Tensor.scale (0 : α) m).sub (Tensor.scale lr g)))
            ((Tensor.scale (0 : α) m).sub (Tensor.scale lr g)) := by
        have hpm' : m.data.length = p.data.length := hpm
        simp only [MomLen, Tensor.add, Tensor.sub, Tensor.scale,
          List.length_zipWith, List.length_map]
        omega
      obtain ⟨ih1, ih2⟩ := ih gs
      constructor
      · simp only [MomentumLearningRule.update_params,
          GradientDescentLearningRule.update_params]
        exact congrArg₂ List.cons hhead ih1
      · simpa [MomentumLearningRule.update_params] using
          List.Forall₂.cons hlen ih2

lemma mom_zero_run_aux [Ring α] (lr : α) :
    ∀ (gss : List (List (Tensor α))) (ps ms : List (Tensor α)),
      List.Forall₂ MomLen ps ms →
      (gss.foldl
          (fun st gs => MomentumLearningRule.update_params lr 0 st.1 st.2 gs)
          (ps, ms)).1
        = gss.foldl (fun ps gs => GradientDescentLearningRule.update_params lr ps gs)
            ps := by
  intro gss
  induction gss with
  | nil => intro ps ms _; rfl
  | cons gs gss ih =>
    intro ps ms h
    obtain ⟨h1, h2⟩ := mom_zero_step lr ps ms gs h
    simp only [List.foldl_cons]
    rw [ih _ _ h2, h1]

/-- Claim C8: Momentum constructed with `mom_coeff = 0` produces, for every
learning rate, every initial parameter list and every finite sequence of
gradient lists, exactly the parameter trajectory of plain gradient descent
with the same learning rate (both starting from `initialise`). -/
theorem C8_momentum_zero_equals_gd (lr : ℚ) (ps : List (Tensor ℚ))
    (gss : List (List (Tensor ℚ))) :
    (MomentumLearningRule.run lr 0 ps gss).1
      = GradientDescentLearningRule.run lr ps gss := by
  apply mom_zero_run_aux
  unfold MomentumLearningRule.initialiseMoms
  rw [List.forall₂_map_right_iff]
  refine List.forall₂_same.mpr fun t _ => ?_
  simp [MomLen, Tensor.zeros_like]

/-! ### Characterisation of the RMSProp index loop -/

lemma rmsprop_loop_spec (lr dr : ℝ) (gs : List (Tensor ℝ)) :
    ∀ (idxs : List Nat) (ps rs : List (Tensor ℝ)), idxs.Nodup →
      (∀ i ∈ idxs, i < ps.length ∧ i < rs.length ∧ i < gs.length) →
      ∃ ps' rs',
        RMSPropLearningRule.loop lr dr gs idxs (ps, rs) = Except.ok (ps', rs')
        ∧ ps'.length = ps.length ∧ rs'.length = rs.length
        ∧ (∀ j, j ∉ idxs → ps'.get? j = ps.get? j ∧ rs'.get? j = rs.get? j)
        ∧ (∀ j ∈ idxs, ∀ p r g, ps.get? j = some p → rs.get? j = some r →
            gs.get? j = some g →
            rs'.get? j = some ((Tensor.scale dr r).add
              (Tensor.scale (1 - dr) g.square))
            ∧ ps'.get? j = some (p.sub ((Tensor.scale lr g).div
                ((((Tensor.scale dr r).add
                  (Tensor.scale (1 - dr) g.square)).sqrtT).addScalar 1e-8)))) := by
  intro idxs
  induction idxs with
  | nil =>
    intro ps rs _ _
    exact ⟨ps, rs, rfl, rfl, rfl, fun j _ => ⟨rfl, rfl⟩, by simp⟩
  | cons i is ih =>
    intro ps rs hnd hmem
    obtain ⟨hips, hirs, higs⟩ := hmem i (List.mem_cons_self i is)
    have hp : ps.get? i = some (ps.get ⟨i, hips⟩) := List.get?_eq_get hips
    have hr : rs.get? i = some (rs.get ⟨i, hirs⟩) := List.get?_eq_get hirs
    have hg : gs.get? i = some (gs.get ⟨i, higs⟩) := List.get?_eq_get higs
    set p := ps.get ⟨i, hips⟩ with hpdef
    set r := rs.get ⟨i, hirs⟩ with hrdef
    set g := gs.get ⟨i, higs⟩ with hgdef
    set r' := (Tensor.scale dr r).add (Tensor.scale (1 - dr) g.square)
      with hr'def
    set p' := p.sub ((Tensor.scale lr g).div (r'.sqrtT.addScalar 1e-8))
      with hp'def
    have hnd' := List.nodup_cons.mp hnd
    have hstep :
        RMSPropLearningRule.loop lr dr gs (i :: is) (ps, rs)
          = RMSPropLearningRule.loop lr dr gs is (ps.set i p', rs.set i r') := by
      simp only [RMSPropLearningRule.loop, hp, hr, hg]
    obtain ⟨ps', rs', hloop, hlen1, hlen2, hout, hin⟩ :=
      ih (ps.set i p') (rs.set i r') hnd'.2 (by
        intro j hj
        obtain ⟨h1, h2, h3⟩ := hmem j (List.mem_cons_of_mem i hj)
        simpa [List.length_set] using ⟨h1, h2, h3⟩)
    refine ⟨ps', rs', hstep.trans hloop, ?_, ?_, ?_, ?_⟩
    · rw [hlen1, List.length_set]
    · rw [hlen2, List.length_set]
    · intro j hj
      have hji : j ≠ i := fun h => hj (h ▸ List.mem_cons_self i is)
      have hjis : j ∉ is := fun h => hj (List.mem_cons_of_mem i h)
      obtain ⟨o1, o2⟩ := hout j hjis
      exact ⟨o1.trans (List.get?_set_ne p' ps hji.symm),
        o2.trans (List.get?_set_ne r' rs hji.symm)⟩
    · intro j hj p0 r0 g0 hp0 hr0 hg0
      rcases List.mem_cons.mp hj with hji | hjis
      · subst hji
        have hpp : p0 = p := by rw [hp] at hp0; exact (Option.some.injEq _ _ ▸ hp0).symm
        have hrr : r0 = r := by rw [hr] at hr0; exact (Option.some.injEq _ _ ▸ hr0).symm
        have hgg : g0 = g := by rw [hg] at hg0; exact (Option.some.injEq _ _ ▸ hg0).symm
        subst hpp; subst hrr; subst hgg
        obtain ⟨o1, o2⟩ := hout j hnd'.1
        constructor
        · rw [o2, List.get?_set_eq_of_lt r' hirs]
        · rw [o1, List.get?_set_eq_of_lt p' hips]
      · have hji : j ≠ i := fun h => hnd'.1 (h ▸ hjis)
        have h1 : (ps.set i p').get? j = some p0 :=
          (List.get?_set_ne p' ps hji.symm).trans hp0
        have h2 : (rs.set i r').get? j = some r0 :=
          (List.get?_set_ne r' rs hji.symm).trans hr0
        exact hin j hjis p0 r0 g0 h1 h2 hg0

/-- Claim C5: RMSProp's `update_params` sets, per parameter `i`,
`r[i] := decay_rate * r[i] + (1 - decay_rate) * g[i]^2` (element-wise
square) and then `p[i] := p[i] - learning_rate * g[i] / (sqrt(r[i]) + 1e-8)`
with `sqrt` and the division element-wise and the numerical floor fixed at
the literal `1e-8` (the constructor takes only `learning_rate` and
`decay_rate`, so no caller can change it). -/
theorem C5_rmsprop_update_params (lr dr : ℝ) (ps rs gs : List (Tensor ℝ))
    (hr : rs.length = ps.length) (hg : ps.length ≤ gs.length) :
    ∃ ps' rs',
      RMSPropLearningRule.update_params lr dr ps rs gs = Except.ok (ps', rs')
      ∧ ps'.length = ps.length ∧ rs'.length = rs.length
      ∧ ∀ i p r g, ps.get? i = some p → rs.get? i = some r →
          gs.get? i = some g →
          rs'.get? i = some ((Tensor.scale dr r).add
            (Tensor.scale (1 - dr) g.square))
          ∧ ps'.get? i = some (p.sub ((Tensor.scale lr g).div
              ((((Tensor.scale dr r).add
                (Tensor.scale (1 - dr) g.square)).sqrtT).addScalar 1e-8))) := by
  obtain ⟨ps', rs', hloop, hlen1, hlen2, _, hin⟩ :=
    rmsprop_loop_spec lr dr gs (List.range ps.length) ps rs
      (List.nodup_range ps.length) (by
        intro i hi
        have : i < ps.length := List.mem_range.mp hi
        exact ⟨this, hr ▸ this, lt_of_lt_of_le this hg⟩)
  refine ⟨ps', rs', hloop, hlen1, hlen2, ?_⟩
  intro i p r g hp hrr hgg
  have hi : i < ps.length := by
    obtain ⟨h, _⟩ := List.get?_eq_some.mp hp
    exact h
  exact hin i (List.mem_range.mpr hi) p r g hp hrr hgg

/-- Witness for C5 at `lr = 1`, `dr = 1/2`, one parameter `[0]`, rms `[0]`,
gradient `[1]`. -/
theorem C5_rmsprop_update_params_witness :
    ∃ ps' rs',
      RMSPropLearningRule.update_params 1 (1/2 : ℝ)
          [⟨[1], [0]⟩] [⟨[1], [0]⟩] [⟨[1], [1]⟩] = Except.ok (ps', rs')
      ∧ ps'.length = [(⟨[1], [0]⟩ : Tensor ℝ)].length
      ∧ rs'.length = [(⟨[1], [0]⟩ : Tensor ℝ)].length
      ∧ ∀ i p r g, [(⟨[1], [0]⟩ : Tensor ℝ)].get? i = some p →
          [(⟨[1], [0]⟩ : Tensor ℝ)].get? i = some r →
          [(⟨[1], [1]⟩ : Tensor ℝ)].get? i = some g →
          rs'.get? i = some ((Tensor.scale (1/2 : ℝ) r).add
            (Tensor.scale (1 - 1/2) g.square))
          ∧ ps'.get? i = some (p.sub ((Tensor.scale (1 : ℝ) g).div
              ((((Tensor.scale (1/2 : ℝ) r).add
                (Tensor.scale (1 - 1/2) g.square)).sqrtT).addScalar 1e-8))) :=
  C5_rmsprop_update_params 1 (1/2) [⟨[1], [0]⟩] [⟨[1], [0]⟩] [⟨[1], [1]⟩]
    (by simp) (by simp)

/-! ### Characterisation of the Adam index loop -/

lemma adam_loop_spec (lr b1 b2 : ℝ) (gs : List (Tensor ℝ)) :
    ∀ (idxs : List Nat) (ps m1s m2s : List (Tensor ℝ)), idxs.Nodup →
      (∀ i ∈ idxs,
        i < ps.length ∧ i < m1s.length ∧ i < m2s.length ∧ i < gs.length) →
      ∃ ps' m1s' m2s',
        AdamLearningRule.loop lr b1 b2 gs idxs (ps, m1s, m2s)
          = Except.ok (ps', m1s', m2s')
        ∧ ps'.length = ps.length ∧ m1s'.length = m1s.length
        ∧ m2s'.length = m2s.length
        ∧ (∀ j, j ∉ idxs → ps'.get? j = ps.get? j ∧ m1s'.get? j = m1s.get? j
            ∧ m2s'.get? j = m2s.get? j)
        ∧ (∀ j ∈ idxs, ∀ p m1 m2 g, ps.get? j = some p →
            m1s.get? j = some m1 → m2s.get? j = some m2 → gs.get? j = some g →
            m1s'.get? j = some ((Tensor.scale b1 m1).add
              (Tensor.scale (1 - b1) g))
            ∧ m2s'.get? j = some ((Tensor.scale b2 m2).add
              (Tensor.scale (1 - b2) g.square))
            ∧ ps'.get? j = some (p.sub ((Tensor.scale lr
                ((Tensor.scale b1 m1).add (Tensor.scale (1 - b1) g))).div
              ((((Tensor.scale b2 m2).add
                (Tensor.scale (1 - b2) g.square)).sqrtT).addScalar 1e-8)))) := by
  intro idxs
  induction idxs with
  | nil =>
    intro ps m1s m2s _ _
    exact ⟨ps, m1s, m2s, rfl, rfl, rfl, rfl, fun j _ => ⟨rfl, rfl, rfl⟩, by simp⟩
  | cons i is ih =>
    intro ps m1s m2s hnd hmem
    obtain ⟨hips, him1, him2, higs⟩ := hmem i (List.mem_cons_self i is)
    have hp : ps.get? i = some (ps.get ⟨i, hips⟩) := List.get?_eq_get hips
    have h1 : m1s.get? i = some (m1s.get ⟨i, him1⟩) := List.get?_eq_get him1
    have h2 : m2s.get? i = some (m2s.get ⟨i, him2⟩) := List.get?_eq_get him2
    have hg : gs.get? i = some (gs.get ⟨i, higs⟩) := List.get?_eq_get higs
    set p := ps.get ⟨i, hips⟩
    set m1 := m1s.get ⟨i, him1⟩
    set m2 := m2s.get ⟨i, him2⟩
    set g := gs.get ⟨i, higs⟩
    set m1' := (Tensor.scale b1 m1).add (Tensor.scale (1 - b1) g) with hm1'def
    set m2' := (Tensor.scale b2 m2).add (Tensor.scale (1 - b2) g.square)
      with hm2'def
    set p' := p.sub ((Tensor.scale lr m1').div (m2'.sqrtT.addScalar 1e-8))
      with hp'def
    have hnd' := List.nodup_cons.mp hnd
    have hstep :
        AdamLearningRule.loop lr b1 b2 gs (i :: is) (ps, m1s, m2s)
          = AdamLearningRule.loop lr b1 b2 gs is
              (ps.set i p', m1s.set i m1', m2s.set i m2') := by
      simp only [AdamLearningRule.loop, hp, h1, h2, hg]
    obtain ⟨ps', m1s', m2s', hloop, hl1, hl2, hl3, hout, hin⟩ :=
      ih (ps.set i p') (m1s.set i m1') (m2s.set i m2') hnd'.2 (by
        intro j hj
        obtain ⟨k1, k2, k3, k4⟩ := hmem j (List.mem_cons_of_mem i hj)
        simpa [List.length_set] using ⟨k1, k2, k3, k4⟩)
    refine ⟨ps', m1s', m2s', hstep.trans hloop, ?_, ?_, ?_, ?_, ?_⟩
    · rw [hl1, List.length_set]
    · rw [hl2, List.length_set]
    · rw [hl3, List.length_set]
    · intro j hj
      have hji : j ≠ i := fun h => hj (h ▸ List.mem_cons_self i is)
      have hjis : j ∉ is := fun h => hj (List.mem_cons_of_mem i h)
      obtain ⟨o1, o2, o3⟩ := hout j hjis
      exact ⟨o1.trans (List.get?_set_ne p' ps hji.symm),
        o2.trans (List.get?_set_ne m1' m1s hji.symm),
        o3.trans (List.get?_set_ne m2' m2s hji.symm)⟩
    · intro j hj p0 q1 q2 g0 hp0 hq1 hq2 hg0
      rcases List.mem_cons.mp hj with hji | hjis
      · subst hji
        have hpp : p0 = p := by rw [hp] at hp0; exact (Option.some.injEq _ _ ▸ hp0).symm
        have hqq1 : q1 = m1 := by rw [h1] at hq1; exact (Option.some.injEq _ _ ▸ hq1).symm
        have hqq2 : q2 = m2 := by rw [h2] at hq2; exact (Option.some.injEq _ _ ▸ hq2).symm
        have hgg : g0 = g := by rw [hg] at hg0; exact (Option.some.injEq _ _ ▸ hg0).symm
        subst hpp; subst hqq1; subst hqq2; subst hgg
        obtain ⟨o1, o2, o3⟩ := hout j hnd'.1
        refine ⟨?_, ?_, ?_⟩
        · rw [o2, List.get?_set_eq_of_lt m1' him1]
        · rw [o3, List.get?_set_eq_of_lt m2' him2]
        · rw [o1, List.get?_set_eq_of_lt p' hips]
      · have hji : j ≠ i := fun h => hnd'.1 (h ▸ hjis)
        have k1 : (ps.set i p').get? j = some p0 :=
          (List.get?_set_ne p' ps hji.symm).trans hp0
        have k2 : (m1s.set i m1').get? j = some q1 :=
          (List.get?_set_ne m1' m1s hji.symm).trans hq1
        have k3 : (m2s.set i m2').get? j = some q2 :=
          (List.get?_set_ne m2' m2s hji.symm).trans hq2
        exact hin j hjis p0 q1 q2 g0 k1 k2 k3 hg0

/-! ### Adam with default hyperparameters, first step after initialise -/

lemma adam_default_first_step :
    AdamLearningRule.update_params 1e-3 0.9 0.999
        [⟨[1], [0]⟩] [⟨[1], [0]⟩] [⟨[1], [0]⟩] [⟨[1], [1]⟩]
      = Except.ok
          ([⟨[1], [0 - 1e-3 * 0.1 / (Real.sqrt 0.001 + 1e-8)]⟩],
            [⟨[1], [(0.1 : ℝ)]⟩], [⟨[1], [(0.001 : ℝ)]⟩]) := by
  norm_num [AdamLearningRule.update_params, AdamLearningRule.loop,
    Tensor.scale, Tensor.add, Tensor.sub, Tensor.div, Tensor.square,
    Tensor.sqrtT, Tensor.addScalar, List.range_succ]

lemma adam_default_first_step_lower :
    (-0.00317 : ℝ) < 0 - 1e-3 * 0.1 / (Real.sqrt 0.001 + 1e-8) := by
  have s_lb : (0.0316 : ℝ) < Real.sqrt 0.001 :=
    (Real.lt_sqrt (by norm_num)).mpr (by norm_num)
  have hd : (0.0316 : ℝ) < Real.sqrt 0.001 + 1e-8 := by linarith
  have h1 : 1e-3 * 0.1 / (Real.sqrt 0.001 + 1e-8) < (1e-3 * 0.1 : ℝ) / 0.0316 :=
    div_lt_div_of_pos_left (by norm_num) (by norm_num) hd
  have h2 : (1e-3 * 0.1 : ℝ) / 0.0316 < 0.00317 := by norm_num
  linarith

lemma adam_default_first_step_upper :
    (0 : ℝ) - 1e-3 * 0.1 / (Real.sqrt 0.001 + 1e-8) < -0.00316 := by
  have s_ub : Real.sqrt 0.001 < 0.03163 :=
    (Real.sqrt_lt' (by norm_num)).mpr (by norm_num)
  have s_lb : (0.0316 : ℝ) < Real.sqrt 0.001 :=
    (Real.lt_sqrt (by norm_num)).mpr (by norm_num)
  have hd : Real.sqrt 0.001 + 1e-8 < 0.031631 := by linarith
  have hd0 : (0 : ℝ) < Real.sqrt 0.001 + 1e-8 := by linarith
  have h1 : (1e-3 * 0.1 : ℝ) / 0.031631
      < 1e-3 * 0.1 / (Real.sqrt 0.001 + 1e-8) :=
    div_lt_div_of_pos_left (by norm_num) hd0 hd
  have h2 : (0.00316 : ℝ) < 1e-3 * 0.1 / 0.031631 := by norm_num
  linarith

/-- Counterexample to claim C3 as stated: with default hyperparameters,
parameter `[0.0]` and gradient `[1.0]` on the first call after
`initialise`, the first moment is `0.1` and the second `0.001` as claimed,
but the updated parameter is `-1e-4 / (sqrt(0.001) + 1e-8) ≈ -3.16e-3`,
more than `2e-3` away from the claimed value `-3.16e-4` (which is off by a
factor of ten). -/
theorem C3_counterexample_adam_value :
    AdamLearningRule.update_params 1e-3 0.9 0.999
        [⟨[1], [0]⟩] [⟨[1], [0]⟩] [⟨[1], [0]⟩] [⟨[1], [1]⟩]
      = Except.ok
          ([⟨[1], [0 - 1e-3 * 0.1 / (Real.sqrt 0.001 + 1e-8)]⟩],
            [⟨[1], [(0.1 : ℝ)]⟩], [⟨[1], [(0.001 : ℝ)]⟩])
    ∧ (2e-3 : ℝ)
      < |0 - 1e-3 * 0.1 / (Real.sqrt 0.001 + 1e-8) - (-3.16e-4)| := by
  refine ⟨adam_default_first_step, ?_⟩
  have h := adam_default_first_step_upper
  exact lt_abs.mpr (Or.inr (by linarith))

/-- Claim C3 (amended): Adam's `update_params` computes, per parameter `i`,
`m1[i] := b1*m1[i] + (1-b1)*g[i]`, `m2[i] := b2*m2[i] + (1-b2)*g[i]^2`,
`p[i] := p[i] - learning_rate*m1[i]/(sqrt(m2[i]) + 1e-8)` with no
bias-correction division; with default hyperparameters, parameter `[0.0]`
and gradient `[1.0]` on the first call after `initialise`, `m1 = 0.1`,
`m2 = 0.001`, and the parameter becomes approximately `-3.16e-3` (it lies
strictly between `-0.00317` and `-0.00316`). -/
theorem C3_adam_update_params (lr b1 b2 : ℝ) (ps m1s m2s gs : List (Tensor ℝ))
    (hm1 : m1s.length = ps.length) (hm2 : m2s.length = ps.length)
    (hg : ps.length ≤ gs.length) :
    (∃ ps' m1s' m2s',
      AdamLearningRule.update_params lr b1 b2 ps m1s m2s gs
        = Except.ok (ps', m1s', m2s')
      ∧ ∀ i p m1 m2 g, ps.get? i = some p → m1s.get? i = some m1 →
          m2s.get? i = some m2 → gs.get? i = some g →
          m1s'.get? i = some ((Tensor.scale b1 m1).add
            (Tensor.scale (1 - b1) g))
          ∧ m2s'.get? i = some ((Tensor.scale b2 m2).add
            (Tensor.scale (1 - b2) g.square))
          ∧ ps'.get? i = some (p.sub ((Tensor.scale lr
              ((Tensor.scale b1 m1).add (Tensor.scale (1 - b1) g))).div
            ((((Tensor.scale b2 m2).add
              (Tensor.scale (1 - b2) g.square)).sqrtT).addScalar 1e-8))))
    ∧ AdamLearningRule.update_params 1e-3 0.9 0.999
        [⟨[1], [0]⟩] [⟨[1], [0]⟩] [⟨[1], [0]⟩] [⟨[1], [1]⟩]
      = Except.ok
          ([⟨[1], [0 - 1e-3 * 0.1 / (Real.sqrt 0.001 + 1e-8)]⟩],
            [⟨[1], [(0.1 : ℝ)]⟩], [⟨[1], [(0.001 : ℝ)]⟩])
    ∧ (-0.00317 : ℝ) < 0 - 1e-3 * 0.1 / (Real.sqrt 0.001 + 1e-8)
    ∧ (0 : ℝ) - 1e-3 * 0.1 / (Real.sqrt 0.001 + 1e-8) < -0.00316 := by
  refine ⟨?_, adam_default_first_step, adam_default_first_step_lower,
    adam_default_first_step_upper⟩
  obtain ⟨ps', m1s', m2s', hloop, _, _, _, _, hin⟩ :=
    adam_loop_spec lr b1 b2 gs (List.range ps.length) ps m1s m2s
      (List.nodup_range ps.length) (by
        intro i hi
        have hi' : i < ps.length := List.mem_range.mp hi
        exact ⟨hi', hm1 ▸ hi', hm2 ▸ hi', lt_of_lt_of_le hi' hg⟩)
  refine ⟨ps', m1s', m2s', hloop, ?_⟩
  intro i p m1 m2 g hp hq1 hq2 hgg
  have hi : i < ps.length := by
    obtain ⟨h, _⟩ := List.get?_eq_some.mp hp
    exact h
  exact hin i (List.mem_range.mpr hi) p m1 m2 g hp hq1 hq2 hgg

/-- Witness for the amended C3 at one parameter, the default scenario. -/
theorem C3_adam_update_params_witness :
    (∃ ps' m1s' m2s',
      AdamLearningRule.update_params 1e-3 0.9 0.999
          [⟨[1], [0]⟩] [⟨[1], [0]⟩] [⟨[1], [0]⟩] [⟨[1], [1]⟩]
        = Except.ok (ps', m1s', m2s')
      ∧ ∀ i p m1 m2 g, [(⟨[1], [0]⟩ : Tensor ℝ)].get? i = some p →
          [(⟨[1], [0]⟩ : Tensor ℝ)].get? i = some m1 →
          [(⟨[1], [0]⟩ : Tensor ℝ)].get? i = some m2 →
          [(⟨[1], [1]⟩ : Tensor ℝ)].get? i = some g →
          m1s'.get? i = some ((Tensor.scale (0.9 : ℝ) m1).add
            (Tensor.scale (1 - 0.9) g))
          ∧ m2s'.get? i = some ((Tensor.scale (0.999 : ℝ) m2).add
            (Tensor.scale (1 - 0.999) g.square))
          ∧ ps'.get? i = some (p.sub ((Tensor.scale (1e-3 : ℝ)
              ((Tensor.scale (0.9 : ℝ) m1).add (Tensor.scale (1 - 0.9) g))).div
            ((((Tensor.scale (0.999 : ℝ) m2).add
              (Tensor.scale (1 - 0.999) g.square)).sqrtT).addScalar 1e-8))))
    ∧ AdamLearningRule.update_params 1e-3 0.9 0.999
        [⟨[1], [0]⟩] [⟨[1], [0]⟩] [⟨[1], [0]⟩] [⟨[1], [1]⟩]
      = Except.ok
          ([⟨[1], [0 - 1e-3 * 0.1 / (Real.sqrt 0.001 + 1e-8)]⟩],
            [⟨[1], [(0.1 : ℝ)]⟩], [⟨[1], [(0.001 : ℝ)]⟩])
    ∧ (-0.00317 : ℝ) < 0 - 1e-3 * 0.1 / (Real.sqrt 0.001 + 1e-8)
    ∧ (0 : ℝ) - 1e-3 * 0.1 / (Real.sqrt 0.001 + 1e-8) < -0.00316 :=
  C3_adam_update_params 1e-3 0.9 0.999
    [⟨[1], [0]⟩] [⟨[1], [0]⟩] [⟨[1], [0]⟩] [⟨[1], [1]⟩]
    (by simp) (by simp) (by simp)

/-! ### Non-negativity of the squared-gradient buffers -/

/-- every element of the tensor is non-negative. -/
def NonnegT (t : Tensor ℝ) : Prop := ∀ x ∈ t.data, 0 ≤ x

/-- every element of every tensor in the list is non-negative. -/
def NonnegL (ts : List (Tensor ℝ)) : Prop := ∀ t ∈ ts, NonnegT t

lemma mem_zipWith_decomp {α β γ : Type} {f : α → β → γ} :
    ∀ {a : List α} {b : List β} {x : γ}, x ∈ List.zipWith f a b →
      ∃ y ∈ a, ∃ z ∈ b, x = f y z := by
  intro a
  induction a with
  | nil => intro b x hx; simp at hx
  | cons y a ih =>
    intro b x hx
    cases b with
    | nil => simp at hx
    | cons z b =>
      rcases List.mem_cons.mp hx with h | h
      · exact ⟨y, List.mem_cons_self y a, z, List.mem_cons_self z b, h⟩
      · obtain ⟨y0, hy0, z0, hz0, hx0⟩ := ih h
        exact ⟨y0, List.mem_cons_of_mem y hy0, z0,
          List.mem_cons_of_mem z hz0, hx0⟩

/-- the convex-style buffer update preserves non-negativity when the decay
rate lies in `[0, 1]`. -/
lemma nonneg_buffer_step (dr : ℝ) (h0 : 0 ≤ dr) (h1 : dr ≤ 1)
    (r g : Tensor ℝ) (hr : NonnegT r) :
    NonnegT ((Tensor.scale dr r).add (Tensor.scale (1 - dr) g.square)) := by
  intro x hx
  simp only [Tensor.add, Tensor.scale, Tensor.square] at hx
  obtain ⟨y, hy, z, hz, hxyz⟩ := mem_zipWith_decomp hx
  obtain ⟨y0, hy0, hy0'⟩ := List.mem_map.mp hy
  obtain ⟨z0, hz0, hz0'⟩ := List.mem_map.mp hz
  obtain ⟨w, hw, hw'⟩ := List.mem_map.mp hz0
  subst hxyz
  rw [← hy0', ← hz0', ← hw']
  have hy1 := hr y0 hy0
  have h2 : (0 : ℝ) ≤ 1 - dr := by linarith
  have k1 := mul_nonneg h0 hy1
  have k2 := mul_nonneg h2 (mul_self_nonneg w)
  linarith

lemma rmsprop_loop_nonneg (lr dr : ℝ) (h0 : 0 ≤ dr) (h1 : dr ≤ 1)
    (gs : List (Tensor ℝ)) :
    ∀ (idxs : List Nat) (ps rs ps' rs' : List (Tensor ℝ)), NonnegL rs →
      RMSPropLearningRule.loop lr dr gs idxs (ps, rs) = Except.ok (ps', rs') →
      NonnegL rs' := by
  intro idxs
  induction idxs with
  | nil =>
    intro ps rs ps' rs' hrs hloop
    simp only [RMSPropLearningRule.loop, Except.ok.injEq, Prod.mk.injEq]
      at hloop
    exact hloop.2 ▸ hrs
  | cons i is ih =>
    intro ps rs ps' rs' hrs hloop
    cases hp : ps[i]? with
    | none => simp [RMSPropLearningRule.loop, hp] at hloop
    | some p =>
      cases hq : rs[i]? with
      | none => simp [RMSPropLearningRule.loop, hp, hq] at hloop
      | some r =>
        cases hg : gs[i]? with
        | none => simp [RMSPropLearningRule.loop, hp, hq, hg] at hloop
        | some g =>
          have hq' : rs.get? i = some r := by simpa using hq
          have hp' : ps.get? i = some p := by simpa using hp
          have hg' : gs.get? i = some g := by simpa using hg
          simp only [RMSPropLearningRule.loop, hp', hq', hg'] at hloop
          refine ih _ _ _ _ ?_ hloop
          intro t ht
          rcases List.mem_or_eq_of_mem_set ht with h | h
          · exact hrs t h
          · exact h ▸ nonneg_buffer_step dr h0 h1 r g
              (hrs r (List.get?_mem hq'))

lemma adam_loop_nonneg (lr b1 b2 : ℝ) (h0 : 0 ≤ b2) (h1 : b2 ≤ 1)
    (gs : List (Tensor ℝ)) :
    ∀ (idxs : List Nat) (ps m1s m2s ps' m1s' m2s' : List (Tensor ℝ)),
      NonnegL m2s →
      AdamLearningRule.loop lr b1 b2 gs idxs (ps, m1s, m2s)
        = Except.ok (ps', m1s', m2s') →
      NonnegL m2s' := by
  intro idxs
  induction idxs with
  | nil =>
    intro ps m1s m2s ps' m1s' m2s' hm2 hloop
    simp only [AdamLearningRule.loop, Except.ok.injEq, Prod.mk.injEq] at hloop
    exact hloop.2.2 ▸ hm2
  | cons i is ih =>
    intro ps m1s m2s ps' m1s' m2s' hm2 hloop
    cases hp : ps[i]? with
    | none => simp [AdamLearningRule.loop, hp] at hloop
    | some p =>
      cases hq1 : m1s[i]? with
      | none => simp [AdamLearningRule.loop, hp, hq1] at hloop
      | some m1 =>
        cases hq2 : m2s[i]? with
        | none => simp [AdamLearningRule.loop, hp, hq1, hq2] at hloop
        | some m2 =>
          cases hg : gs[i]? with
          | none => simp [AdamLearningRule.loop, hp, hq1, hq2, hg] at hloop
          | some g =>
            have hp' : ps.get? i = some p := by simpa using hp
            have hq1' : m1s.get? i = some m1 := by simpa using hq1
            have hq2' : m2s.get? i = some m2 := by simpa using hq2
            have hg' : gs.get? i = some g := by simpa using hg
            simp only [AdamLearningRule.loop, hp', hq1', hq2', hg'] at hloop
            refine ih _ _ _ _ _ _ ?_ hloop
            intro t ht
            rcases List.mem_or_eq_of_mem_set ht with h | h
            · exact hm2 t h
            · exact h ▸ nonneg_buffer_step b2 h0 h1 m2 g
                (hm2 m2 (List.get?_mem hq2'))

/-- Claim C10: for RMSProp and Adam with decay rates in `[0, 1]`, the
squared-gradient buffer and the second-moment buffer are zero at
`initialise` and stay element-wise non-negative across `update_params`
(each update is a convex-style combination of a non-negative buffer and an
element-wise square), so every element of the divisor
`sqrt(buffer) + 1e-8` is at least `1e-8` and in particular positive. -/
theorem C10_nonneg_buffers :
    (∀ ps : List (Tensor ℝ),
      NonnegL (RMSPropLearningRule.initialiseRms ps)
      ∧ NonnegL (AdamLearningRule.initialiseMoments ps).2)
    ∧ (∀ lr dr : ℝ, 0 ≤ dr → dr ≤ 1 → ∀ ps rs gs : List (Tensor ℝ),
        NonnegL rs → rs.length = ps.length → ps.length ≤ gs.length →
        ∃ ps' rs',
          RMSPropLearningRule.update_params lr dr ps rs gs
            = Except.ok (ps', rs')
          ∧ NonnegL rs'
          ∧ ∀ t ∈ rs', ∀ x ∈ t.data,
              (1e-8 : ℝ) ≤ Real.sqrt x + 1e-8 ∧ (0 : ℝ) < Real.sqrt x + 1e-8)
    ∧ (∀ lr b1 b2 : ℝ, 0 ≤ b2 → b2 ≤ 1 →
        ∀ ps m1s m2s gs : List (Tensor ℝ),
        NonnegL m2s → m1s.length = ps.length → m2s.length = ps.length →
        ps.length ≤ gs.length →
        ∃ ps' m1s' m2s',
          AdamLearningRule.update_params lr b1 b2 ps m1s m2s gs
            = Except.ok (ps', m1s', m2s')
          ∧ NonnegL m2s'
          ∧ ∀ t ∈ m2s', ∀ x ∈ t.data,
              (1e-8 : ℝ) ≤ Real.sqrt x + 1e-8 ∧ (0 : ℝ) < Real.sqrt x + 1e-8) := by
  refine ⟨?_, ?_, ?_⟩
  · intro ps
    constructor
    · intro t ht x hx
      obtain ⟨t0, _, ht0⟩ := List.mem_map.mp ht
      rw [← ht0] at hx
      simp only [Tensor.zeros_like] at hx
      obtain ⟨_, _, hx0⟩ := List.mem_map.mp hx
      exact hx0 ▸ le_refl 0
    · intro t ht x hx
      obtain ⟨t0, _, ht0⟩ := List.mem_map.mp ht
      rw [← ht0] at hx
      simp only [Tensor.zeros_like] at hx
      obtain ⟨_, _, hx0⟩ := List.mem_map.mp hx
      exact hx0 ▸ le_refl 0
  · intro lr dr h0 h1 ps rs gs hrs hlen hglen
    obtain ⟨ps', rs', hloop, _, _, _, _⟩ :=
      rmsprop_loop_spec lr dr gs (List.range ps.length) ps rs
        (List.nodup_range ps.length) (by
          intro i hi
          have hi' : i < ps.length := List.mem_range.mp hi
          exact ⟨hi', hlen ▸ hi', lt_of_lt_of_le hi' hglen⟩)
    have hok : RMSPropLearningRule.update_params lr dr ps rs gs
        = Except.ok (ps', rs') := hloop
    have hnn := rmsprop_loop_nonneg lr dr h0 h1 gs (List.range ps.length)
      ps rs ps' rs' hrs hloop
    refine ⟨ps', rs', hok, hnn, ?_⟩
    intro t ht x hx
    have hs := Real.sqrt_nonneg x
    constructor <;> linarith
  · intro lr b1 b2 h0 h1 ps m1s m2s gs hm2 hl1 hl2 hglen
    obtain ⟨ps', m1s', m2s', hloop, _, _, _, _, _⟩ :=
      adam_loop_spec lr b1 b2 gs (List.range ps.length) ps m1s m2s
        (List.nodup_range ps.length) (by
          intro i hi
          have hi' : i < ps.length := List.mem_range.mp hi
          exact ⟨hi', hl1 ▸ hi', hl2 ▸ hi', lt_of_lt_of_le hi' hglen⟩)
    have hok : AdamLearningRule.update_params lr b1 b2 ps m1s m2s gs
        = Except.ok (ps', m1s', m2s') := hloop
    have hnn := adam_loop_nonneg lr b1 b2 h0 h1 gs (List.range ps.length)
      ps m1s m2s ps' m1s' m2s' hm2 hloop
    refine ⟨ps', m1s', m2s', hok, hnn, ?_⟩
    intro t ht x hx
    have hs := Real.sqrt_nonneg x
    constructor <;> linarith

/-- Witness for C10: RMSProp at `lr = 1`, `dr = 1/2` on one parameter. -/
theorem C10_nonneg_buffers_witness :
    (NonnegL (RMSPropLearningRule.initialiseRms [(⟨[1], [3]⟩ : Tensor ℝ)])
      ∧ NonnegL (AdamLearningRule.initialiseMoments
          [(⟨[1], [3]⟩ : Tensor ℝ)]).2)
    ∧ ∃ ps' rs',
        RMSPropLearningRule.update_params 1 (1/2 : ℝ)
            [⟨[1], [0]⟩] [⟨[1], [0]⟩] [⟨[1], [1]⟩]
          = Except.ok (ps', rs')
        ∧ NonnegL rs'
        ∧ ∀ t ∈ rs', ∀ x ∈ t.data,
            (1e-8 : ℝ) ≤ Real.sqrt x + 1e-8 ∧ (0 : ℝ) < Real.sqrt x + 1e-8 :=
  ⟨C10_nonneg_buffers.1 [(⟨[1], [3]⟩ : Tensor ℝ)],
    C10_nonneg_buffers.2.1 1 (1/2) (by norm_num) (by norm_num)
      [⟨[1], [0]⟩] [⟨[1], [0]⟩] [⟨[1], [1]⟩]
      (by intro t ht x hx; simp at ht; subst ht; simp at hx; simp [hx])
      (by simp) (by simp)⟩

/-! ### Shape bookkeeping -/

/-- `qs` has one tensor per tensor of `ps`, with matching shape and
matching number of elements position by position. -/
def ShapeEqL (ps qs : List (Tensor α)) : Prop :=
  qs.length = ps.length
  ∧ ∀ i p q, ps.get? i = some p → qs.get? i = some q →
      q.shape = p.shape ∧ q.data.length = p.data.length

/-- every element of every tensor in the list is zero. -/
def AllZero [Zero α] (ts : List (Tensor α)) : Prop :=
  ∀ t ∈ ts, ∀ x ∈ t.data, x = 0

lemma shapeEqL_nil : ShapeEqL ([] : List (Tensor α)) [] :=
  ⟨rfl, fun i p _ hp => by simp at hp⟩

lemma shapeEqL_cons {p q : Tensor α} {ps qs : List (Tensor α)} :
    ShapeEqL (p :: ps) (q :: qs) ↔
      (q.shape = p.shape ∧ q.data.length = p.data.length)
        ∧ ShapeEqL ps qs := by
  constructor
  · intro ⟨hlen, hpt⟩
    refine ⟨hpt 0 p q rfl rfl, ?_, ?_⟩
    · simpa using hlen
    · intro i p0 q0 hp0 hq0
      exact hpt (i + 1) p0 q0 (by simpa using hp0) (by simpa using hq0)
  · intro ⟨hhead, hlen, hpt⟩
    refine ⟨by simpa using hlen, ?_⟩
    intro i p0 q0 hp0 hq0
    cases i with
    | zero =>
      simp only [List.get?_cons_zero, Option.some.injEq] at hp0 hq0
      exact hp0 ▸ hq0 ▸ hhead
    | succ n =>
      simp only [List.get?_cons_succ] at hp0 hq0
      exact hpt n p0 q0 hp0 hq0

lemma shapeEqL_zeros_like [Zero α] (ps : List (Tensor α)) :
    ShapeEqL ps (ps.map Tensor.zeros_like) := by
  refine ⟨List.length_map ps Tensor.zeros_like, ?_⟩
  intro i p q hp hq
  rw [List.get?_map, hp] at hq
  simp only [Option.map_some', Option.some.injEq] at hq
  subst hq
  simp [Tensor.zeros_like]

lemma allZero_zeros_like [Zero α] (ps : List (Tensor α)) :
    AllZero (ps.map Tensor.zeros_like) := by
  intro t ht x hx
  obtain ⟨t0, _, ht0⟩ := List.mem_map.mp ht
  rw [← ht0] at hx
  simp only [Tensor.zeros_like] at hx
  obtain ⟨_, _, hx0⟩ := List.mem_map.mp hx
  exact hx0.symm

lemma mom_update_shape [Ring α] (lr c : α) :
    ∀ (ps ms gs : List (Tensor α)), ShapeEqL ps ms → ShapeEqL ps gs →
      ShapeEqL ps (MomentumLearningRule.update_params lr c ps ms gs).1
      ∧ ShapeEqL (MomentumLearningRule.update_params lr c ps ms gs).1
          (MomentumLearningRule.update_params lr c ps ms gs).2 := by
  intro ps
  induction ps with
  | nil =>
    intro ms gs hm hg
    have hms : ms = [] := List.length_eq_zero.mp hm.1
    have hgs : gs = [] := List.length_eq_zero.mp hg.1
    subst hms; subst hgs
    exact ⟨shapeEqL_nil, shapeEqL_nil⟩
  | cons p ps ih =>
    intro ms gs hm hg
    cases ms with
    | nil => simpa using hm.1
    | cons m ms =>
      cases gs with
      | nil => simpa using hg.1
      | cons g gs =>
        obtain ⟨⟨hm1, hm2⟩, hmtail⟩ := shapeEqL_cons.mp hm
        obtain ⟨⟨hg1, hg2⟩, hgtail⟩ := shapeEqL_cons.mp hg
        obtain ⟨ih1, ih2⟩ := ih ms gs hmtail hgtail
        have hmlen : ((Tensor.scale c m).sub (Tensor.scale lr g)).data.length
            = p.data.length := by
          simp only [Tensor.sub, Tensor.scale, List.length_zipWith,
            List.length_map]
          omega
        have hmsh : ((Tensor.scale c m).sub (Tensor.scale lr g)).shape
            = p.shape := by
          simp only [Tensor.sub, Tensor.scale]
          exact hm1
        have hplen :
            (p.add ((Tensor.scale c m).sub (Tensor.scale lr g))).data.length
              = p.data.length := by
          simp only [Tensor.add, List.length_zipWith, hmlen]
          omega
        constructor
        · refine shapeEqL_cons.mpr ⟨⟨rfl, hplen⟩, ?_⟩
          simpa [MomentumLearningRule.update_params] using ih1
        · refine shapeEqL_cons.mpr ⟨⟨?_, ?_⟩, ?_⟩
          · simpa [Tensor.add] using hmsh
          · rw [hmlen, hplen]
          · simpa [MomentumLearningRule.update_params] using ih2

lemma rmsprop_update_shape (lr dr : ℝ) (ps rs gs : List (Tensor ℝ))
    (hr : ShapeEqL ps rs) (hg : ShapeEqL ps gs) :
    ∃ ps' rs',
      RMSPropLearningRule.update_params lr dr ps rs gs = Except.ok (ps', rs')
      ∧ ShapeEqL ps ps' ∧ ShapeEqL ps' rs' := by
  obtain ⟨ps', rs', hloop, hlen1, hlen2, _, hin⟩ :=
    rmsprop_loop_spec lr dr gs (List.range ps.length) ps rs
      (List.nodup_range ps.length) (by
        intro i hi
        have hi' : i < ps.length := List.mem_range.mp hi
        exact ⟨hi', hr.1 ▸ hi', hg.1 ▸ hi'⟩)
  have e1 : rs.length = ps.length := hr.1
  have e2 : gs.length = ps.length := hg.1
  refine ⟨ps', rs', hloop, ⟨hlen1, ?_⟩, ⟨by omega, ?_⟩⟩
  · intro i p q hp hq
    have hi : i < ps.length := (List.get?_eq_some.mp hp).1
    have hir : i < rs.length := hr.1 ▸ hi
    have hig : i < gs.length := hg.1 ▸ hi
    have hrget : rs.get? i = some (rs.get ⟨i, hir⟩) := List.get?_eq_get hir
    have hgget : gs.get? i = some (gs.get ⟨i, hig⟩) := List.get?_eq_get hig
    obtain ⟨_, hps'⟩ := hin i (List.mem_range.mpr hi) p _ _ hp hrget hgget
    rw [hps'] at hq
    obtain ⟨er1, er2⟩ := hr.2 i p _ hp hrget
    obtain ⟨eg1, eg2⟩ := hg.2 i p _ hp hgget
    simp only [Option.some.injEq] at hq
    subst hq
    constructor
    · rfl
    · simp only [Tensor.sub, Tensor.div, Tensor.scale, Tensor.add,
        Tensor.sqrtT, Tensor.addScalar, Tensor.square, List.length_zipWith,
        List.length_map]
      omega
  · intro i p' r' hp' hr'
    have hi' : i < ps'.length := (List.get?_eq_some.mp hp').1
    have hi : i < ps.length := hlen1 ▸ hi'
    have hir : i < rs.length := hr.1 ▸ hi
    have hig : i < gs.length := hg.1 ▸ hi
    have hpget : ps.get? i = some (ps.get ⟨i, hi⟩) := List.get?_eq_get hi
    have hrget : rs.get? i = some (rs.get ⟨i, hir⟩) := List.get?_eq_get hir
    have hgget : gs.get? i = some (gs.get ⟨i, hig⟩) := List.get?_eq_get hig
    obtain ⟨hrs'f, hps'f⟩ := hin i (List.mem_range.mpr hi) _ _ _
      hpget hrget hgget
    rw [hps'f] at hp'
    rw [hrs'f] at hr'
    simp only [Option.some.injEq] at hp' hr'
    subst hp'; subst hr'
    obtain ⟨er1, er2⟩ := hr.2 i _ _ hpget hrget
    obtain ⟨eg1, eg2⟩ := hg.2 i _ _ hpget hgget
    constructor
    · simp only [Tensor.sub, Tensor.add, Tensor.scale]
      exact er1
    · simp only [Tensor.sub, Tensor.div, Tensor.scale, Tensor.add,
        Tensor.sqrtT, Tensor.addScalar, Tensor.square, List.length_zipWith,
        List.length_map]
      omega

lemma adam_update_shape (lr b1 b2 : ℝ) (ps m1s m2s gs : List (Tensor ℝ))
    (h1 : ShapeEqL ps m1s) (h2 : ShapeEqL ps m2s) (hg : ShapeEqL ps gs) :
    ∃ ps' m1s' m2s',
      AdamLearningRule.update_params lr b1 b2 ps m1s m2s gs
        = Except.ok (ps', m1s', m2s')
      ∧ ShapeEqL ps ps' ∧ ShapeEqL ps' m1s' ∧ ShapeEqL ps' m2s' := by
  obtain ⟨ps', m1s', m2s', hloop, hl1, hl2, hl3, _, hin⟩ :=
    adam_loop_spec lr b1 b2 gs (List.range ps.length) ps m1s m2s
      (List.nodup_range ps.length) (by
        intro i hi
        have hi' : i < ps.length := List.mem_range.mp hi
        exact ⟨hi', h1.1 ▸ hi', h2.1 ▸ hi', hg.1 ▸ hi'⟩)
  have e1 : m1s.length = ps.length := h1.1
  have e2 : m2s.length = ps.length := h2.1
  have e3 : gs.length = ps.length := hg.1
  have key : ∀ i, i < ps.length →
      ∀ p' q1 q2, ps'.get? i = some p' → m1s'.get? i = some q1 →
        m2s'.get? i = some q2 →
        ∀ p, ps.get? i = some p →
          (p'.shape = p.shape ∧ p'.data.length = p.data.length)
          ∧ (q1.shape = p.shape ∧ q1.data.length = p.data.length)
          ∧ (q2.shape = p.shape ∧ q2.data.length = p.data.length) := by
    intro i hi p' q1 q2 hp' hq1 hq2 p hp
    have hi1 : i < m1s.length := h1.1 ▸ hi
    have hi2 : i < m2s.length := h2.1 ▸ hi
    have hig : i < gs.length := hg.1 ▸ hi
    have k1 : m1s.get? i = some (m1s.get ⟨i, hi1⟩) := List.get?_eq_get hi1
    have k2 : m2s.get? i = some (m2s.get ⟨i, hi2⟩) := List.get?_eq_get hi2
    have kg : gs.get? i = some (gs.get ⟨i, hig⟩) := List.get?_eq_get hig
    obtain ⟨f1, f2, f3⟩ := hin i (List.mem_range.mpr hi) _ _ _ _ hp k1 k2 kg
    rw [f3] at hp'; rw [f1] at hq1; rw [f2] at hq2
    simp only [Option.some.injEq] at hp' hq1 hq2
    subst hp'; subst hq1; subst hq2
    obtain ⟨e11, e12⟩ := h1.2 i _ _ hp k1
    obtain ⟨e21, e22⟩ := h2.2 i _ _ hp k2
    obtain ⟨eg1, eg2⟩ := hg.2 i _ _ hp kg
    refine ⟨⟨rfl, ?_⟩, ⟨?_, ?_⟩, ⟨?_, ?_⟩⟩
    · simp only [Tensor.sub, Tensor.div, Tensor.scale, Tensor.add,
        Tensor.sqrtT, Tensor.addScalar, Tensor.square, List.length_zipWith,
        List.length_map]
      omega
    · simp only [Tensor.add, Tensor.scale]
      exact e11
    · simp only [Tensor.add, Tensor.scale, List.length_zipWith,
        List.length_map]
      omega
    · simp only [Tensor.add, Tensor.scale]
      exact e21
    · simp only [Tensor.add, Tensor.scale, Tensor.square,
        List.length_zipWith, List.length_map]
      omega
  refine ⟨ps', m1s', m2s', hloop, ⟨hl1, ?_⟩, ⟨by omega, ?_⟩, ⟨by omega, ?_⟩⟩
  · intro i p q hp hq
    have hi : i < ps.length := (List.get?_eq_some.mp hp).1
    have hi1' : i < m1s'.length := by omega
    have hi2' : i < m2s'.length := by omega
    obtain ⟨kp, _, _⟩ := key i hi q (m1s'.get ⟨i, hi1'⟩) (m2s'.get ⟨i, hi2'⟩)
      hq (List.get?_eq_get hi1') (List.get?_eq_get hi2') p hp
    exact kp
  · intro i p' q hp' hq
    have hi' : i < ps'.length := (List.get?_eq_some.mp hp').1
    have hi : i < ps.length := hl1 ▸ hi'
    have hi2' : i < m2s'.length := by omega
    have hpget : ps.get? i = some (ps.get ⟨i, hi⟩) := List.get?_eq_get hi
    obtain ⟨kp, k1, _⟩ := key i hi p' q (m2s'.get ⟨i, hi2'⟩) hp' hq
      (List.get?_eq_get hi2') _ hpget
    exact ⟨k1.1.trans kp.1.symm, k1.2.trans kp.2.symm⟩
  · intro i p' q hp' hq
    have hi' : i < ps'.length := (List.get?_eq_some.mp hp').1
    have hi : i < ps.length := hl1 ▸ hi'
    have hi1' : i < m1s'.length := by omega
    have hpget : ps.get? i = some (ps.get ⟨i, hi⟩) := List.get?_eq_get hi
    obtain ⟨kp, _, k2⟩ := key i hi p' (m1s'.get ⟨i, hi1'⟩) q hp'
      (List.get?_eq_get hi1') hq _ hpget
    exact ⟨k2.1.trans kp.1.symm, k2.2.trans kp.2.symm⟩

/-- Claim C9: `initialise` allocates exactly one auxiliary tensor per
parameter per state kind (two per parameter for Adam), each all-zero and
shape-matched to its parameter, and each `update_params` call keeps every
state tensor (and every parameter tensor) shape-matched, provided the
gradients are shape-matched to the parameters. -/
theorem C9_state_shape_invariant :
    (∀ ps : List (Tensor ℚ),
      (MomentumLearningRule.initialiseMoms ps).length = ps.length
      ∧ ShapeEqL ps (MomentumLearningRule.initialiseMoms ps)
      ∧ AllZero (MomentumLearningRule.initialiseMoms ps))
    ∧ (∀ ps : List (Tensor ℝ),
      (RMSPropLearningRule.initialiseRms ps).length = ps.length
      ∧ ShapeEqL ps (RMSPropLearningRule.initialiseRms ps)
      ∧ AllZero (RMSPropLearningRule.initialiseRms ps)
      ∧ (AdamLearningRule.initialiseMoments ps).1.length = ps.length
      ∧ (AdamLearningRule.initialiseMoments ps).2.length = ps.length
      ∧ ShapeEqL ps (AdamLearningRule.initialiseMoments ps).1
      ∧ ShapeEqL ps (AdamLearningRule.initialiseMoments ps).2
      ∧ AllZero (AdamLearningRule.initialiseMoments ps).1
      ∧ AllZero (AdamLearningRule.initialiseMoments ps).2)
    ∧ (∀ (lr c : ℚ) (ps ms gs : List (Tensor ℚ)),
        ShapeEqL ps ms → ShapeEqL ps gs →
        ShapeEqL ps (MomentumLearningRule.update_params lr c ps ms gs).1
        ∧ ShapeEqL (MomentumLearningRule.update_params lr c ps ms gs).1
            (MomentumLearningRule.update_params lr c ps ms gs).2)
    ∧ (∀ (lr dr : ℝ) (ps rs gs : List (Tensor ℝ)),
        ShapeEqL ps rs → ShapeEqL ps gs →
        ∃ ps' rs',
          RMSPropLearningRule.update_params lr dr ps rs gs
            = Except.ok (ps', rs')
          ∧ ShapeEqL ps ps' ∧ ShapeEqL ps' rs')
    ∧ (∀ (lr b1 b2 : ℝ) (ps m1s m2s gs : List (Tensor ℝ)),
        ShapeEqL ps m1s → ShapeEqL ps m2s → ShapeEqL ps gs →
        ∃ ps' m1s' m2s',
          AdamLearningRule.update_params lr b1 b2 ps m1s m2s gs
            = Except.ok (ps', m1s', m2s')
          ∧ ShapeEqL ps ps' ∧ ShapeEqL ps' m1s' ∧ ShapeEqL ps' m2s') := by
  refine ⟨?_, ?_, ?_, ?_, ?_⟩
  · intro ps
    exact ⟨List.length_map ps Tensor.zeros_like, shapeEqL_zeros_like ps,
      allZero_zeros_like ps⟩
  · intro ps
    exact ⟨List.length_map ps Tensor.zeros_like, shapeEqL_zeros_like ps,
      allZero_zeros_like ps, List.length_map ps Tensor.zeros_like,
      List.length_map ps Tensor.zeros_like, shapeEqL_zeros_like ps,
      shapeEqL_zeros_like ps, allZero_zeros_like ps, allZero_zeros_like ps⟩
  · intro lr c ps ms gs hm hg
    exact mom_update_shape lr c ps ms gs hm hg
  · intro lr dr ps rs gs hr hg
    exact rmsprop_update_shape lr dr ps rs gs hr hg
  · intro lr b1 b2 ps m1s m2s gs h1 h2 hg
    exact adam_update_shape lr b1 b2 ps m1s m2s gs h1 h2 hg

/-- Witness for C9: Momentum `initialise` on parameters of shapes `(3,)`
and `(2, 2)`, and one Momentum update step on the `(3,)` parameter. -/
theorem C9_state_shape_invariant_witness :
    ((MomentumLearningRule.initialiseMoms
        [(⟨[3], [1, 2, 3]⟩ : Tensor ℚ), ⟨[2, 2], [1, 2, 3, 4]⟩]).length
      = [(⟨[3], [1, 2, 3]⟩ : Tensor ℚ), ⟨[2, 2], [1, 2, 3, 4]⟩].length
    ∧ ShapeEqL [(⟨[3], [1, 2, 3]⟩ : Tensor ℚ), ⟨[2, 2], [1, 2, 3, 4]⟩]
        (MomentumLearningRule.initialiseMoms
          [(⟨[3], [1, 2, 3]⟩ : Tensor ℚ), ⟨[2, 2], [1, 2, 3, 4]⟩])
    ∧ AllZero (MomentumLearningRule.initialiseMoms
        [(⟨[3], [1, 2, 3]⟩ : Tensor ℚ), ⟨[2, 2], [1, 2, 3, 4]⟩]))
    ∧ (ShapeEqL [(⟨[3], [1, 2, 3]⟩ : Tensor ℚ)]
        (MomentumLearningRule.update_params (0.1 : ℚ) 0.9
          [⟨[3], [1, 2, 3]⟩] [⟨[3], [0, 0, 0]⟩] [⟨[3], [1, 1, 1]⟩]).1
      ∧ ShapeEqL
          (MomentumLearningRule.update_params (0.1 : ℚ) 0.9
            [⟨[3], [1, 2, 3]⟩] [⟨[3], [0, 0, 0]⟩] [⟨[3], [1, 1, 1]⟩]).1
          (MomentumLearningRule.update_params (0.1 : ℚ) 0.9
            [⟨[3], [1, 2, 3]⟩] [⟨[3], [0, 0, 0]⟩] [⟨[3], [1, 1, 1]⟩]).2) :=
  ⟨C9_state_shape_invariant.1
      [(⟨[3], [1, 2, 3]⟩ : Tensor ℚ), ⟨[2, 2], [1, 2, 3, 4]⟩],
    C9_state_shape_invariant.2.2.1 (0.1 : ℚ) 0.9
      [⟨[3], [1, 2, 3]⟩] [⟨[3], [0, 0, 0]⟩] [⟨[3], [1, 1, 1]⟩]
      (shapeEqL_cons.mpr ⟨⟨rfl, rfl⟩, shapeEqL_nil⟩)
      (shapeEqL_cons.mpr ⟨⟨rfl, rfl⟩, shapeEqL_nil⟩)⟩
